import Mathlib

/-!
Verification of the activation state machine and endpoint handlers of a
FastAPI server (src/api.py) that fronts the Tado vendor client.

The vendor client (PyTado) is modelled as an environment of call outcomes:
each adapter call either returns a value or raises an exception (an `Err`
string, the rendering of the Python exception).  Calls made inside the
polling loop of `complete_activation` are indexed by the attempt number, so
one environment describes a whole execution.  Handlers are pure functions
of the server state and the environment; side effects the specification
talks about (polling steps, sleeps, zone-state fetches) are counted
explicitly in the result records.
-/

/-- Rendering of a Python exception, as produced by str(e). -/
abbrev Err := String

/-- Model of fastapi.HTTPException: a status code and a detail string. -/
structure HTTPErr where
  code : Nat
  detail : String
deriving DecidableEq

/-- The ActivationResponse pydantic model of src/api.py. -/
structure ActivationResponse where
  status : String
  message : String
  url : Option String
  zone_count : Option Nat
deriving DecidableEq

/-- A sensor reading as passed through from the vendor JSON: the scalar
value (rendered opaquely as a string) and its timestamp, each possibly
absent. -/
structure Reading where
  value : Option String
  timestamp : Option String
deriving DecidableEq

/-- The sensorDataPoints object of one zone. -/
structure Sensor where
  insideTemperature : Option Reading
  humidity : Option Reading
deriving DecidableEq

/-- One entry of the zoneStates mapping; the handler only ever reads its
sensorDataPoints key, with a defensive default. -/
structure ZoneData where
  sensorDataPoints : Option Sensor
deriving DecidableEq

/-- The dictionary returned by tado.get_zone_states().  The zoneStates key
may be absent: the code reads it with .get (defaulting to empty) in the
activation handlers but with a raw indexing (KeyError on absence) in the
zone handlers. -/
structure Zones where
  zoneStates : Option (List (String × ZoneData))
deriving DecidableEq

/-- len(zones.get("zoneStates", \x7b\x7d)) of src/api.py. -/
def zoneCount (z : Zones) : Nat := (z.zoneStates.getD []).length

/-- Environment of vendor-client call outcomes for one handler execution.
`activationStatus`, `zoneStates` and `verificationUrl` are the outcomes of
the calls made outside the polling loop; `drive`, `statusAt` and `zonesAt`
give the outcome of tado.device_activation(), tado.device_activation_status()
and tado.get_zone_states() when called during loop attempt i. -/
structure Adapter where
  activationStatus : Except Err String
  zoneStates : Except Err Zones
  verificationUrl : Except Err String
  drive : Nat → Except Err Unit
  statusAt : Nat → Except Err String
  zonesAt : Nat → Except Err Zones

/-- The mutable app.state of the server: the lazily cached Tado client.
The cached client is identified with its behaviour, an `Adapter`. -/
structure ServerState where
  tadoClient : Option Adapter

/-- Result of get_tado_client: the returned client or the raised
HTTPException, the server state afterwards, and whether a construction of
a new client was attempted. -/
structure ClientRes where
  client : Except HTTPErr Adapter
  state : ServerState
  constructed : Bool

/-- get_tado_client of src/api.py.  `cons` is the outcome of the
Tado(token_file_path=...) constructor call, consulted only when no client
is cached. -/
def get_tado_client (st : ServerState) (cons : Except Err Adapter) : ClientRes :=
  match st.tadoClient with
  | some c => ⟨.ok c, st, false⟩
  | none =>
    match cons with
    | .ok c => ⟨.ok c, ⟨some c⟩, true⟩
    | .error e => ⟨.error ⟨503, "Failed to initialize Tado client: " ++ e⟩, st, true⟩

/-- The success response built by complete_activation when activation is
verified. -/
def completedResp (n : Nat) : ActivationResponse :=
  ⟨"completed", "Activation successful! Token saved and verified", none, some n⟩

/-- The response built after the polling loop falls through without
completing, carrying the last observed status. -/
def pendingPollResp (s : String) : ActivationResponse :=
  ⟨"pending", "Activation not complete yet. Status: " ++ s ++
    ". Please make sure you completed authentication in the browser and try again.", none, none⟩

/-- The fallback response of get_activation_status. -/
def notStartedResp : ActivationResponse :=
  ⟨"not_started", "Activation not started. Call /activation/start to begin", none, none⟩

/-- How the polling loop of complete_activation ended: a return from
inside the loop, the fall-through after a break or after exhausting all
attempts (carrying the value of the status variable at that point), or the
re-raise of the exception of the last attempt. -/
inductive LoopOut where
  | ok (r : ActivationResponse)
  | fallthrough (lastStatus : String)
  | raised (e : Err)
deriving DecidableEq

/-- Outcome of the polling loop together with the counts of its side
effects: calls to tado.device_activation() (`drives`), time.sleep(1) calls
(`sleeps`) and tado.get_zone_states() calls (`fetches`). -/
structure LoopRes where
  out : LoopOut
  drives : Nat
  sleeps : Nat
  fetches : Nat
deriving DecidableEq

/-- The polling loop of complete_activation (the `for attempt in
range(max_attempts)` of src/api.py), as a recursion on the number of
remaining attempts: `fuel` attempts remain, so the current Python loop
index is `maxAttempts - fuel`, and `status` is the current value of the
status variable.  A step raising an exception is retried after a sleep
unless it happened on the last attempt (`fuel = 1`, matching `attempt <
max_attempts - 1`), in which case the exception is re-raised. -/
def pollLoop (ad : Adapter) (maxAttempts : Nat) : Nat → String → LoopRes
  | 0, status => ⟨.fallthrough status, 0, 0, 0⟩
  | fuel+1, status =>
    let attempt := maxAttempts - (fuel+1)
    match ad.drive attempt with
    | .error e =>
      if 0 < fuel then
        let r := pollLoop ad maxAttempts fuel status
        ⟨r.out, r.drives + 1, r.sleeps + 1, r.fetches⟩
      else ⟨.raised e, 1, 0, 0⟩
    | .ok _ =>
      match ad.statusAt attempt with
      | .error e =>
        if 0 < fuel then
          let r := pollLoop ad maxAttempts fuel status
          ⟨r.out, r.drives + 1, r.sleeps + 1, r.fetches⟩
        else ⟨.raised e, 1, 0, 0⟩
      | .ok s =>
        if s == "COMPLETED" then
          match ad.zonesAt attempt with
          | .ok z => ⟨.ok (completedResp (zoneCount z)), 1, 0, 1⟩
          | .error e =>
            if 0 < fuel then
              let r := pollLoop ad maxAttempts fuel s
              ⟨r.out, r.drives + 1, r.sleeps + 1, r.fetches + 1⟩
            else ⟨.raised e, 1, 0, 1⟩
        else if s == "PENDING" then
          let r := pollLoop ad maxAttempts fuel s
          ⟨r.out, r.drives + 1, r.sleeps + 1, r.fetches⟩
        else ⟨.fallthrough s, 1, 0, 0⟩

/-- The max_attempts constant of complete_activation. -/
def max_attempts : Nat := 30

/-- The HTTPException raised by the outer handler of complete_activation. -/
def complete500 (e : Err) : HTTPErr := ⟨500, "Failed to complete activation: " ++ e⟩

/-- Result of the complete_activation handler: the HTTP outcome and the
side-effect counts of the whole handler. -/
structure CompleteRes where
  response : Except HTTPErr ActivationResponse
  drives : Nat
  sleeps : Nat
  fetches : Nat
  state : ServerState

/-- complete_activation of src/api.py.  An HTTPException from
get_tado_client passes through (except HTTPException: raise); every other
exception reaching the outer handler becomes a 500. -/
def complete_activation (st : ServerState) (cons : Except Err Adapter) : CompleteRes :=
  let g := get_tado_client st cons
  match g.client with
  | .error he => ⟨.error he, 0, 0, 0, g.state⟩
  | .ok ad =>
    match ad.activationStatus with
    | .error e => ⟨.error (complete500 e), 0, 0, 0, g.state⟩
    | .ok status =>
      if status == "COMPLETED" then
        match ad.zoneStates with
        | .ok z => ⟨.ok (completedResp (zoneCount z)), 0, 0, 1, g.state⟩
        | .error e => ⟨.error (complete500 e), 0, 0, 1, g.state⟩
      else
        let r := pollLoop ad max_attempts max_attempts status
        match r.out with
        | .ok resp => ⟨.ok resp, r.drives, r.sleeps, r.fetches, g.state⟩
        | .fallthrough s => ⟨.ok (pendingPollResp s), r.drives, r.sleeps, r.fetches, g.state⟩
        | .raised e => ⟨.error (complete500 e), r.drives, r.sleeps, r.fetches, g.state⟩

/-- The try-block body of get_activation_status, after the client has been
obtained: the first exception escaping it is returned as .error. -/
def activation_status_core (ad : Adapter) : Except Err ActivationResponse :=
  match ad.activationStatus with
  | .error e => .error e
  | .ok s =>
    if s == "COMPLETED" then
      match ad.zoneStates with
      | .ok z => .ok ⟨"completed", "Device is activated and ready", none, some (zoneCount z)⟩
      | .error e => .ok ⟨"completed", "Device is activated but cannot fetch zones. " ++ e, none, none⟩
    else if s == "PENDING" then
      .ok ⟨"pending", "Activation in progress. Call /activation/start to get URL", none, none⟩
    else
      .ok ⟨s.toLower, "Activation status: " ++ s, none, none⟩

/-- get_activation_status of src/api.py.  The except-Exception handler
catches everything raised in the try block, the HTTPException of
get_tado_client included, and answers not_started. -/
def get_activation_status (st : ServerState) (cons : Except Err Adapter) :
    Except HTTPErr ActivationResponse × ServerState :=
  let g := get_tado_client st cons
  match g.client with
  | .error _ => (.ok notStartedResp, g.state)
  | .ok ad =>
    match activation_status_core ad with
    | .ok r => (.ok r, g.state)
    | .error _ => (.ok notStartedResp, g.state)

/-- Environment of start_activation: the outcome of os.makedirs and of the
client constructor. -/
structure StartEnv where
  makedirs : Except Err Unit
  cons : Except Err Adapter

/-- Result of start_activation: the HTTP outcome, whether
tado.device_verification_url() was called, and the state afterwards. -/
structure StartRes where
  response : Except HTTPErr ActivationResponse
  urlRequested : Bool
  state : ServerState

/-- The HTTPException raised by the handler of start_activation. -/
def start500 (e : Err) : HTTPErr := ⟨500, "Failed to start activation: " ++ e⟩

/-- str(e) for an HTTPException caught as a plain Exception. -/
def httpErrString (he : HTTPErr) : String := toString he.code ++ ": " ++ he.detail

/-- start_activation of src/api.py.  Its only except clause catches every
exception (an HTTPException from get_tado_client included) and wraps it in
a 500. -/
def start_activation (st : ServerState) (env : StartEnv) : StartRes :=
  match env.makedirs with
  | .error e => ⟨.error (start500 e), false, st⟩
  | .ok _ =>
    let g := get_tado_client st env.cons
    match g.client with
    | .error he => ⟨.error (start500 (httpErrString he)), false, g.state⟩
    | .ok ad =>
      match ad.activationStatus with
      | .error e => ⟨.error (start500 e), false, g.state⟩
      | .ok s =>
        if s == "COMPLETED" then
          match ad.zoneStates with
          | .ok z =>
            ⟨.ok ⟨"completed", "Device is already activated", none, some (zoneCount z)⟩,
              false, g.state⟩
          | .error e => ⟨.error (start500 e), false, g.state⟩
        else
          match ad.verificationUrl with
          | .error e => ⟨.error (start500 e), true, g.state⟩
          | .ok u =>
            ⟨.ok ⟨"pending", "Please open the URL in your browser and authenticate",
              some u, none⟩, true, g.state⟩

/-- Environment of reset_activation: outcomes of os.makedirs, os.remove
and the fresh Tado constructor. -/
structure ResetEnv where
  makedirs : Except Err Unit
  removeFile : Except Err Unit
  construct : Except Err Adapter

/-- The HTTPException raised by the handler of reset_activation. -/
def reset500 (e : Err) : HTTPErr := ⟨500, "Failed to reset activation: " ++ e⟩

/-- The success response of reset_activation. -/
def resetResp : ActivationResponse :=
  ⟨"reset", "Activation process has been reset. You can start over.", none, none⟩

/-- reset_activation of src/api.py: makedirs, then os.remove of the token
file, then construction and caching of a fresh client; any exception
becomes a 500 and leaves app.state untouched. -/
def reset_activation (st : ServerState) (env : ResetEnv) :
    Except HTTPErr ActivationResponse × ServerState :=
  match env.makedirs with
  | .error e => (.error (reset500 e), st)
  | .ok _ =>
    match env.removeFile with
    | .error e => (.error (reset500 e), st)
    | .ok _ =>
      match env.construct with
      | .error e => (.error (reset500 e), st)
      | .ok c => (.ok resetResp, ⟨some c⟩)

/-- The per-zone response shape of the get_zone handler. -/
structure ZoneResponse where
  zone_id : String
  temperature_celsius : Option String
  temperature_timestamp : Option String
  humidity_percentage : Option String
  humidity_timestamp : Option String
deriving DecidableEq

/-- The HTTPException raised by the zone handlers on a non-HTTP failure. -/
def zone500 (e : Err) : HTTPErr := ⟨500, "Failed to retrieve zone data: " ++ e⟩

/-- The rendering of the KeyError raised by zones["zoneStates"] when the
key is absent. -/
def keyErrorZoneStates : Err := "KeyError: zoneStates"

/-- Extraction of one zone response from a zone entry, with the defensive
.get defaults of src/api.py. -/
def zoneResponseOf (zid : String) (zd : ZoneData) : ZoneResponse :=
  let sd := zd.sensorDataPoints.getD ⟨none, none⟩
  let t := sd.insideTemperature.getD ⟨none, none⟩
  let h := sd.humidity.getD ⟨none, none⟩
  ⟨zid, t.value, t.timestamp, h.value, h.timestamp⟩

/-- get_zone of src/api.py.  get_tado_client is called outside the try
block, so its HTTPException propagates unchanged; inside the try block the
404 for an unknown zone id is re-raised as-is by the except-HTTPException
clause, while any other exception becomes a 500. -/
def get_zone (st : ServerState) (cons : Except Err Adapter) (zid : String) :
    Except HTTPErr ZoneResponse × ServerState :=
  let g := get_tado_client st cons
  match g.client with
  | .error he => (.error he, g.state)
  | .ok ad =>
    match ad.zoneStates with
    | .error e => (.error (zone500 e), g.state)
    | .ok z =>
      match z.zoneStates with
      | none => (.error (zone500 keyErrorZoneStates), g.state)
      | some m =>
        match m.lookup zid with
        | none => (.error ⟨404, "Zone " ++ zid ++ " not found"⟩, g.state)
        | some zd => (.ok (zoneResponseOf zid zd), g.state)

/-- The server state before any request: no cached client. -/
def stEmpty : ServerState := ⟨none⟩

/-- A sample zone entry with both sensor readings present. -/
def zdEx : ZoneData := ⟨some ⟨some ⟨some "21.5", some "2025-01-01"⟩, some ⟨some "55", some "2025-01-01"⟩⟩⟩

/-- A sample get_zone_states result with two zones. -/
def zonesEx : Zones := ⟨some [("1", zdEx), ("2", zdEx)]⟩

/-- An adapter whose activation stays PENDING forever. -/
def adPending : Adapter :=
  ⟨.ok "PENDING", .ok zonesEx, .ok "https://login.tado.example",
    fun _ => .ok (), fun _ => .ok "PENDING", fun _ => .ok zonesEx⟩

/-- An adapter whose activation is already COMPLETED. -/
def adCompleted : Adapter :=
  ⟨.ok "COMPLETED", .ok zonesEx, .ok "https://login.tado.example",
    fun _ => .ok (), fun _ => .ok "COMPLETED", fun _ => .ok zonesEx⟩

/-- An adapter whose polling step always raises. -/
def adFailing : Adapter :=
  ⟨.ok "PENDING", .ok zonesEx, .ok "https://login.tado.example",
    fun _ => .error "network blip", fun _ => .ok "PENDING", fun _ => .ok zonesEx⟩

/-- An adapter reporting COMPLETED whose zone-state fetch raises. -/
def adNoZones : Adapter :=
  ⟨.ok "COMPLETED", .error "boom", .ok "https://login.tado.example",
    fun _ => .ok (), fun _ => .ok "COMPLETED", fun _ => .error "boom"⟩

/-- A server state with a cached client. -/
def stCached : ServerState := ⟨some adCompleted⟩

/-- Master counting lemma for the polling loop: at most `fuel` polling
steps happen, sleeps never exceed polling steps, and an exit by return or
by re-raise performs strictly fewer sleeps than polling steps. -/
theorem pollLoop_counts (ad : Adapter) (m : Nat) : ∀ (fuel : Nat) (s : String),
    (pollLoop ad m fuel s).drives ≤ fuel ∧
    (pollLoop ad m fuel s).sleeps ≤ (pollLoop ad m fuel s).drives ∧
    (∀ r, (pollLoop ad m fuel s).out = .ok r →
      (pollLoop ad m fuel s).sleeps < (pollLoop ad m fuel s).drives) ∧
    (∀ e, (pollLoop ad m fuel s).out = .raised e →
      (pollLoop ad m fuel s).sleeps < (pollLoop ad m fuel s).drives) := by
  intro fuel
  induction fuel with
  | zero =>
    intro s
    refine ⟨Nat.le_refl _, Nat.le_refl _, ?_, ?_⟩ <;> intro x h <;> simp [pollLoop] at h
  | succ n ih =>
    intro s
    simp only [pollLoop]
    cases hd : ad.drive (m - (n+1)) with
    | error e =>
      by_cases hn : 0 < n
      · simp only [hn, if_pos]
        exact ⟨Nat.succ_le_succ (ih s).1, Nat.succ_le_succ (ih s).2.1,
          fun r h => Nat.succ_lt_succ ((ih s).2.2.1 r h),
          fun e h => Nat.succ_lt_succ ((ih s).2.2.2 e h)⟩
      · simp only [hn, if_neg, if_false]
        refine ⟨Nat.succ_le_succ (Nat.zero_le _), Nat.zero_le _, ?_, ?_⟩
        · intro r h; simp at h
        · intro e h; exact Nat.zero_lt_one
    | ok u =>
      cases hst : ad.statusAt (m - (n+1)) with
      | error e =>
        by_cases hn : 0 < n
        · simp only [hn, if_pos]
          exact ⟨Nat.succ_le_succ (ih s).1, Nat.succ_le_succ (ih s).2.1,
            fun r h => Nat.succ_lt_succ ((ih s).2.2.1 r h),
            fun e h => Nat.succ_lt_succ ((ih s).2.2.2 e h)⟩
        · simp only [hn, if_neg, if_false]
          refine ⟨Nat.succ_le_succ (Nat.zero_le _), Nat.zero_le _, ?_, ?_⟩
          · intro r h; simp at h
          · intro e h; exact Nat.zero_lt_one
      | ok s2 =>
        by_cases hc : (s2 == "COMPLETED") = true
        · simp only [hc, if_pos]
          cases hz : ad.zonesAt (m - (n+1)) with
          | ok z =>
            refine ⟨Nat.succ_le_succ (Nat.zero_le _), Nat.zero_le _, ?_, ?_⟩
            · intro r h; exact Nat.zero_lt_one
            · intro e h; simp at h
          | error e =>
            by_cases hn : 0 < n
            · simp only [hn, if_pos]
              exact ⟨Nat.succ_le_succ (ih s2).1, Nat.succ_le_succ (ih s2).2.1,
                fun r h => Nat.succ_lt_succ ((ih s2).2.2.1 r h),
                fun e h => Nat.succ_lt_succ ((ih s2).2.2.2 e h)⟩
            · simp only [hn, if_neg, if_false]
              refine ⟨Nat.succ_le_succ (Nat.zero_le _), Nat.zero_le _, ?_, ?_⟩
              · intro r h; simp at h
              · intro e h; exact Nat.zero_lt_one
        · by_cases hp : (s2 == "PENDING") = true
          · simp only [hc, hp, if_pos, if_neg, Bool.false_eq_true, if_false]
            exact ⟨Nat.succ_le_succ (ih s2).1, Nat.succ_le_succ (ih s2).2.1,
              fun r h => Nat.succ_lt_succ ((ih s2).2.2.1 r h),
              fun e h => Nat.succ_lt_succ ((ih s2).2.2.2 e h)⟩
          · simp only [hc, hp, Bool.false_eq_true, if_false]
            refine ⟨Nat.succ_le_succ (Nat.zero_le _), Nat.zero_le _, ?_, ?_⟩
            · intro r h; simp at h
            · intro e h; simp at h

/-- Characterization of complete_activation when it reaches the polling
loop: the side-effect counts are those of the loop, and the response is
determined by the loop outcome. -/
theorem complete_activation_eq_loop (st : ServerState) (cons : Except Err Adapter)
    (ad : Adapter) (s0 : String)
    (hc : (get_tado_client st cons).client = .ok ad)
    (hs : ad.activationStatus = .ok s0)
    (hne : (s0 == "COMPLETED") = false) :
    (complete_activation st cons).drives = (pollLoop ad max_attempts max_attempts s0).drives ∧
    (complete_activation st cons).sleeps = (pollLoop ad max_attempts max_attempts s0).sleeps ∧
    (∀ s, (pollLoop ad max_attempts max_attempts s0).out = .fallthrough s →
      (complete_activation st cons).response = .ok (pendingPollResp s)) ∧
    (∀ e, (pollLoop ad max_attempts max_attempts s0).out = .raised e →
      (complete_activation st cons).response = .error (complete500 e)) ∧
    (∀ r, (pollLoop ad max_attempts max_attempts s0).out = .ok r →
      (complete_activation st cons).response = .ok r) := by
  unfold complete_activation
  simp only [hc, hs, hne, Bool.false_eq_true, if_false]
  cases ho : (pollLoop ad max_attempts max_attempts s0).out with
  | ok r => simp [ho]
  | fallthrough s => simp [ho]
  | raised e => simp [ho]

/-- The handler never performs more polling steps than max_attempts. -/
theorem complete_drives_le (st : ServerState) (cons : Except Err Adapter) :
    (complete_activation st cons).drives ≤ max_attempts := by
  unfold complete_activation
  cases hc : (get_tado_client st cons).client with
  | error he => simp [hc]
  | ok ad =>
    cases hs : ad.activationStatus with
    | error e => simp [hc, hs]
    | ok s =>
      by_cases hco : (s == "COMPLETED") = true
      · simp only [hc, hs, hco, if_pos]
        cases hz : ad.zoneStates <;> simp [hz]
      · simp only [hc, hs, hco, Bool.false_eq_true, if_false]
        cases ho : (pollLoop ad max_attempts max_attempts s).out <;>
          simp [ho, (pollLoop_counts ad max_attempts max_attempts s).1]

/-- The handler never sleeps more often than it polls. -/
theorem complete_sleeps_le (st : ServerState) (cons : Except Err Adapter) :
    (complete_activation st cons).sleeps ≤ (complete_activation st cons).drives := by
  unfold complete_activation
  cases hc : (get_tado_client st cons).client with
  | error he => simp [hc]
  | ok ad =>
    cases hs : ad.activationStatus with
    | error e => simp [hc, hs]
    | ok s =>
      by_cases hco : (s == "COMPLETED") = true
      · simp only [hc, hs, hco, if_pos]
        cases hz : ad.zoneStates <;> simp [hz]
      · simp only [hc, hs, hco, Bool.false_eq_true, if_false]
        cases ho : (pollLoop ad max_attempts max_attempts s).out <;>
          simp [ho, (pollLoop_counts ad max_attempts max_attempts s).2.1]

/-- C1: every execution of complete_activation performs at most
max_attempts = 30 polling steps (calls to the adapter drive operation),
and whenever the loop falls through without the status reaching COMPLETED
the handler returns the non-error still-pending response carrying the last
observed status instead of raising a failure. -/
theorem complete_activation_bounded (st : ServerState) (cons : Except Err Adapter) :
    max_attempts = 30 ∧
    (complete_activation st cons).drives ≤ max_attempts ∧
    (∀ ad s0, (get_tado_client st cons).client = .ok ad →
      ad.activationStatus = .ok s0 → (s0 == "COMPLETED") = false →
      ∀ s, (pollLoop ad max_attempts max_attempts s0).out = .fallthrough s →
        (complete_activation st cons).response = .ok (pendingPollResp s)) := by
  refine ⟨rfl, complete_drives_le st cons, ?_⟩
  intro ad s0 hc hs hne s ho
  exact (complete_activation_eq_loop st cons ad s0 hc hs hne).2.2.1 s ho

/-- C1 witness: with an adapter that stays PENDING, all 30 attempts are
used and the handler answers the still-pending response. -/
theorem complete_activation_bounded_witness :
    (complete_activation stEmpty (.ok adPending)).drives ≤ max_attempts ∧
    (complete_activation stEmpty (.ok adPending)).response = .ok (pendingPollResp "PENDING") := by
  have h := complete_activation_bounded stEmpty (.ok adPending)
  exact ⟨h.2.1, h.2.2 adPending "PENDING" rfl rfl (by decide) "PENDING" (by decide)⟩

/-- C2 counterexample: with an adapter that always reports PENDING the
handler performs 30 polling attempts and 30 sleeps — the code also sleeps
after the final attempt when it observes PENDING, so the number of sleeps
is not strictly less than the number of polling attempts. -/
theorem complete_sleeps_cex :
    (complete_activation stEmpty (.ok adPending)).drives = 30 ∧
    (complete_activation stEmpty (.ok adPending)).sleeps = 30 ∧
    ¬ ((complete_activation stEmpty (.ok adPending)).sleeps
        < (complete_activation stEmpty (.ok adPending)).drives) := by
  decide

/-- C2 amended: a sleep precedes each retry, so sleeps never exceed
polling attempts; after a successful completion or after a failure raised
on the last attempt no extra sleep happens (strictly fewer sleeps than
attempts); only a final attempt that observes PENDING sleeps once more,
making the totals equal on exhaustion. -/
theorem complete_sleeps_amended (st : ServerState) (cons : Except Err Adapter) :
    (complete_activation st cons).sleeps ≤ (complete_activation st cons).drives ∧
    (∀ ad m fuel s r, (pollLoop ad m fuel s).out = .ok r →
      (pollLoop ad m fuel s).sleeps < (pollLoop ad m fuel s).drives) ∧
    (∀ ad m fuel s e, (pollLoop ad m fuel s).out = .raised e →
      (pollLoop ad m fuel s).sleeps < (pollLoop ad m fuel s).drives) := by
  refine ⟨complete_sleeps_le st cons, ?_, ?_⟩
  · intro ad m fuel s r h
    exact (pollLoop_counts ad m fuel s).2.2.1 r h
  · intro ad m fuel s e h
    exact (pollLoop_counts ad m fuel s).2.2.2 e h

/-- C2 amended witness: the pending adapter obeys the sleep bound, and a
loop that completes on its first attempt sleeps strictly less often than
it polls. -/
theorem complete_sleeps_amended_witness :
    (complete_activation stEmpty (.ok adPending)).sleeps
      ≤ (complete_activation stEmpty (.ok adPending)).drives ∧
    (pollLoop adCompleted 1 1 "PENDING").sleeps < (pollLoop adCompleted 1 1 "PENDING").drives := by
  have h := complete_sleeps_amended stEmpty (.ok adPending)
  exact ⟨h.1, h.2.1 adCompleted 1 1 "PENDING" (completedResp 2) (by decide)⟩

/-- C3: a complete_activation call finding the status already COMPLETED
performs zero polling steps and zero sleeps, makes exactly one zone-state
fetch, and returns the success response with the zone count. -/
theorem complete_activation_idempotent (st : ServerState) (cons : Except Err Adapter)
    (ad : Adapter)
    (hc : (get_tado_client st cons).client = .ok ad)
    (hs : ad.activationStatus = .ok "COMPLETED") :
    (complete_activation st cons).drives = 0 ∧
    (complete_activation st cons).sleeps = 0 ∧
    (complete_activation st cons).fetches = 1 ∧
    (∀ z, ad.zoneStates = .ok z →
      (complete_activation st cons).response = .ok (completedResp (zoneCount z))) := by
  unfold complete_activation
  simp only [hc, hs]
  cases hz : ad.zoneStates with
  | ok z =>
    refine ⟨by simp, by simp, by simp, ?_⟩
    intro z2 hz2
    injection hz2 with h
    subst h
    simp
  | error e =>
    refine ⟨by simp, by simp, by simp, ?_⟩
    intro z2 hz2
    cases hz2

/-- C3 witness: an already-completed adapter yields the short-circuit
success with the count of its two zones. -/
theorem complete_activation_idempotent_witness :
    (complete_activation stEmpty (.ok adCompleted)).drives = 0 ∧
    (complete_activation stEmpty (.ok adCompleted)).fetches = 1 ∧
    (complete_activation stEmpty (.ok adCompleted)).response = .ok (completedResp 2) := by
  have h := complete_activation_idempotent stEmpty (.ok adCompleted) adCompleted rfl rfl
  refine ⟨h.1, h.2.2.1, ?_⟩
  have h2 := h.2.2.2 zonesEx rfl
  simpa using h2

/-- C4: a transient failure of the polling step is absorbed on every
attempt but the last — one extra sleep, then the loop goes on — while a
failure on the last attempt is re-raised and surfaced by the handler as a
500 error. -/
theorem complete_transient_retry (ad : Adapter) (s : String) (e : Err) :
    (∀ fuel, 0 < fuel → ad.drive (max_attempts - (fuel+1)) = .error e →
      pollLoop ad max_attempts (fuel+1) s =
        ⟨(pollLoop ad max_attempts fuel s).out,
         (pollLoop ad max_attempts fuel s).drives + 1,
         (pollLoop ad max_attempts fuel s).sleeps + 1,
         (pollLoop ad max_attempts fuel s).fetches⟩) ∧
    (ad.drive (max_attempts - 1) = .error e →
      pollLoop ad max_attempts 1 s = ⟨.raised e, 1, 0, 0⟩) ∧
    (∀ st cons s0, (get_tado_client st cons).client = .ok ad →
      ad.activationStatus = .ok s0 → (s0 == "COMPLETED") = false →
      (pollLoop ad max_attempts max_attempts s0).out = .raised e →
      (complete_activation st cons).response = .error (complete500 e)) := by
  refine ⟨?_, ?_, ?_⟩
  · intro fuel hf hd
    simp only [pollLoop, hd, hf, if_pos]
  · intro hd
    simp only [pollLoop, hd]
    simp
  · intro st cons s0 hc hs hne ho
    exact (complete_activation_eq_loop st cons ad s0 hc hs hne).2.2.2.1 e ho

/-- C4 witness: an adapter whose polling step always fails re-raises on
the last attempt, and the handler surfaces the failure as a 500. -/
theorem complete_transient_retry_witness :
    pollLoop adFailing max_attempts 1 "PENDING" = ⟨.raised "network blip", 1, 0, 0⟩ ∧
    (complete_activation stEmpty (.ok adFailing)).response
      = .error (complete500 "network blip") := by
  have h := complete_transient_retry adFailing "PENDING" "network blip"
  exact ⟨h.2.1 rfl, h.2.2 stEmpty (.ok adFailing) "PENDING" rfl rfl (by decide) (by decide)⟩

/-- The status handler always answers without raising. -/
theorem get_activation_status_isOk (st : ServerState) (cons : Except Err Adapter) :
    ((get_activation_status st cons).1).isOk = true := by
  unfold get_activation_status
  cases hc : (get_tado_client st cons).client with
  | error he => simp [hc, Except.isOk, Except.toBool]
  | ok ad => cases hr : activation_status_core ad <;> simp [hc, hr, Except.isOk, Except.toBool]

/-- C5 counterexample: a zone-fetch failure under a COMPLETED status is
not folded into not_started — the handler answers a completed response
with the cannot-fetch-zones message. -/
theorem activation_status_not_started_cex :
    adNoZones.zoneStates = .error "boom" ∧
    (get_activation_status stEmpty (.ok adNoZones)).1 =
      .ok ⟨"completed", "Device is activated but cannot fetch zones. boom", none, none⟩ ∧
    ("completed" : String) ≠ "not_started" := by
  exact ⟨rfl, rfl, by decide⟩

/-- C5 amended: the status handler never raises an HTTP error; a client
construction failure or a status-query failure is folded into the
not_started response, while a zone-fetch failure under a COMPLETED status
yields a non-error completed response without zone count. -/
theorem activation_status_amended (st : ServerState) (cons : Except Err Adapter) :
    ((get_activation_status st cons).1).isOk = true ∧
    (∀ e, (get_tado_client st cons).client = .error e →
      (get_activation_status st cons).1 = .ok notStartedResp) ∧
    (∀ ad e, (get_tado_client st cons).client = .ok ad →
      ad.activationStatus = .error e →
      (get_activation_status st cons).1 = .ok notStartedResp) ∧
    (∀ ad e, (get_tado_client st cons).client = .ok ad →
      ad.activationStatus = .ok "COMPLETED" → ad.zoneStates = .error e →
      (get_activation_status st cons).1 =
        .ok ⟨"completed", "Device is activated but cannot fetch zones. " ++ e, none, none⟩) := by
  refine ⟨get_activation_status_isOk st cons, ?_, ?_, ?_⟩
  · intro e hc
    unfold get_activation_status
    simp [hc]
  · intro ad e hc hs
    unfold get_activation_status
    simp only [hc]
    unfold activation_status_core
    simp [hs]
  · intro ad e hc hs hz
    unfold get_activation_status
    simp only [hc]
    unfold activation_status_core
    simp [hs, hz]

/-- C5 amended witness: a client-construction failure answers the
not_started response without raising. -/
theorem activation_status_amended_witness :
    (get_activation_status stEmpty (.error "init fail")).1 = .ok notStartedResp ∧
    ((get_activation_status stEmpty (.error "init fail")).1).isOk = true := by
  have h := activation_status_amended stEmpty (.error "init fail")
  exact ⟨h.2.1 ⟨503, "Failed to initialize Tado client: init fail"⟩ rfl, h.1⟩

/-- C6: start_activation called with the status already COMPLETED returns
the success response with the zone count without requesting the
verification URL; with any other status it returns the verification URL
with a pending status; and the handler consults the directory-creation
step first — if it fails, nothing else happens. -/
theorem start_activation_spec (st : ServerState) (env : StartEnv) (ad : Adapter) (s : String)
    (hm : env.makedirs = .ok ())
    (hc : (get_tado_client st env.cons).client = .ok ad)
    (hs : ad.activationStatus = .ok s) :
    (s = "COMPLETED" → (start_activation st env).urlRequested = false ∧
      (∀ z, ad.zoneStates = .ok z →
        (start_activation st env).response =
          .ok ⟨"completed", "Device is already activated", none, some (zoneCount z)⟩)) ∧
    (s ≠ "COMPLETED" → ∀ u, ad.verificationUrl = .ok u →
      (start_activation st env).response =
        .ok ⟨"pending", "Please open the URL in your browser and authenticate", some u, none⟩ ∧
      (start_activation st env).urlRequested = true) ∧
    (∀ (st2 : ServerState) (env2 : StartEnv) e, env2.makedirs = .error e →
      start_activation st2 env2 = ⟨.error (start500 e), false, st2⟩) := by
  refine ⟨?_, ?_, ?_⟩
  · intro hcomp
    subst hcomp
    unfold start_activation
    simp only [hm, hc, hs]
    cases hz : ad.zoneStates with
    | ok z =>
      refine ⟨by simp, ?_⟩
      intro z2 hz2
      injection hz2 with h
      subst h
      simp
    | error e =>
      refine ⟨by simp, ?_⟩
      intro z2 hz2
      cases hz2
  · intro hne u hu
    unfold start_activation
    have hne2 : (s == "COMPLETED") = false := by
      simp [hne]
    simp [hm, hc, hs, hne2, hu]
  · intro st2 env2 e hm2
    unfold start_activation
    simp [hm2]

/-- C6 witness: an already-completed adapter short-circuits without a URL
request, and a pending adapter gets the verification URL. -/
theorem start_activation_spec_witness :
    (start_activation stEmpty ⟨.ok (), .ok adCompleted⟩).urlRequested = false ∧
    (start_activation stEmpty ⟨.ok (), .ok adCompleted⟩).response =
      .ok ⟨"completed", "Device is already activated", none, some (zoneCount zonesEx)⟩ ∧
    (start_activation stEmpty ⟨.ok (), .ok adPending⟩).response =
      .ok ⟨"pending", "Please open the URL in your browser and authenticate",
        some "https://login.tado.example", none⟩ := by
  have h1 := start_activation_spec stEmpty ⟨.ok (), .ok adCompleted⟩ adCompleted "COMPLETED" rfl rfl rfl
  have h2 := start_activation_spec stEmpty ⟨.ok (), .ok adPending⟩ adPending "PENDING" rfl rfl rfl
  exact ⟨(h1.1 rfl).1, (h1.1 rfl).2 zonesEx rfl,
    (h2.2.1 (by decide) "https://login.tado.example" rfl).1⟩

/-- C7: get_tado_client is lazy and idempotent — a cached client is
returned unchanged with no construction, a first call constructs and
caches, every later call returns the same cached client, and a failed
construction surfaces as a 503 service-unavailable error. -/
theorem get_tado_client_spec (st : ServerState) (cons : Except Err Adapter) :
    (∀ c, st.tadoClient = some c → get_tado_client st cons = ⟨.ok c, st, false⟩) ∧
    (st.tadoClient = none → ∀ c, cons = .ok c →
      get_tado_client st cons = ⟨.ok c, ⟨some c⟩, true⟩) ∧
    (∀ c, (get_tado_client st cons).client = .ok c → ∀ cons2,
      get_tado_client (get_tado_client st cons).state cons2 =
        ⟨.ok c, (get_tado_client st cons).state, false⟩) ∧
    (st.tadoClient = none → ∀ e, cons = .error e →
      get_tado_client st cons = ⟨.error ⟨503, "Failed to initialize Tado client: " ++ e⟩, st, true⟩) := by
  refine ⟨?_, ?_, ?_, ?_⟩
  · intro c hst
    unfold get_tado_client
    simp [hst]
  · intro hst c hcons
    unfold get_tado_client
    simp [hst, hcons]
  · intro c hok cons2
    cases hst : st.tadoClient with
    | some c0 =>
      unfold get_tado_client at hok ⊢
      simp only [hst] at hok ⊢
      injection hok with h
      subst h
      rfl
    | none =>
      cases hcons : cons with
      | ok c0 =>
        unfold get_tado_client at hok ⊢
        simp only [hst, hcons] at hok ⊢
        injection hok with h
        subst h
        rfl
      | error e =>
        unfold get_tado_client at hok
        simp only [hst, hcons] at hok
        cases hok
  · intro hst e hcons
    unfold get_tado_client
    simp [hst, hcons]

/-- C7 witness: a first call with a successful constructor caches the
client, an immediate second call returns it without constructing, and a
failing constructor yields a 503. -/
theorem get_tado_client_spec_witness :
    get_tado_client stEmpty (.ok adPending) = ⟨.ok adPending, ⟨some adPending⟩, true⟩ ∧
    get_tado_client ⟨some adPending⟩ (.error "later") = ⟨.ok adPending, ⟨some adPending⟩, false⟩ ∧
    (get_tado_client stEmpty (.error "boom")).client =
      .error ⟨503, "Failed to initialize Tado client: boom"⟩ := by
  have h := get_tado_client_spec stEmpty (.ok adPending)
  have h2 := get_tado_client_spec stEmpty (.error "boom")
  refine ⟨h.2.1 rfl adPending rfl, ?_, congrArg ClientRes.client (h2.2.2.2 rfl "boom" rfl)⟩
  have h3 := h.2.2.1 adPending rfl (.error "later")
  exact h3

/-- C8: reset_activation deletes the token artifact and replaces the
cached client with a freshly constructed one; a failure of the deletion
step — absent-file errors included — surfaces as a 500 error. -/
theorem reset_activation_spec (st : ServerState) (env : ResetEnv) :
    (∀ c, env.makedirs = .ok () → env.removeFile = .ok () → env.construct = .ok c →
      reset_activation st env = (.ok resetResp, ⟨some c⟩)) ∧
    (∀ e, env.makedirs = .ok () → env.removeFile = .error e →
      (reset_activation st env).1 = .error (reset500 e)) := by
  constructor
  · intro c hm hr hcons
    unfold reset_activation
    simp [hm, hr, hcons]
  · intro e hm hr
    unfold reset_activation
    simp [hm, hr]

/-- C8 witness: a fully successful reset installs the fresh client, and a
deletion failure (file already absent) yields the 500 error. -/
theorem reset_activation_spec_witness :
    reset_activation stCached ⟨.ok (), .ok (), .ok adPending⟩ = (.ok resetResp, ⟨some adPending⟩) ∧
    (reset_activation stCached ⟨.ok (), .error "FileNotFoundError", .ok adPending⟩).1 =
      .error (reset500 "FileNotFoundError") := by
  exact ⟨(reset_activation_spec stCached ⟨.ok (), .ok (), .ok adPending⟩).1 adPending rfl rfl rfl,
    (reset_activation_spec stCached ⟨.ok (), .error "FileNotFoundError", .ok adPending⟩).2
      "FileNotFoundError" rfl rfl⟩

/-- C9: a zone id absent from the reported zone states makes get_zone
answer the 404 not-found error, not a 500. -/
theorem get_zone_absent_404 (st : ServerState) (cons : Except Err Adapter) (zid : String)
    (ad : Adapter) (z : Zones) (m : List (String × ZoneData))
    (hc : (get_tado_client st cons).client = .ok ad)
    (hz : ad.zoneStates = .ok z) (hm : z.zoneStates = some m)
    (habs : m.lookup zid = none) :
    (get_zone st cons zid).1 = .error ⟨404, "Zone " ++ zid ++ " not found"⟩ := by
  unfold get_zone
  simp [hc, hz, hm, habs]

/-- C9 witness: zone id 99 is absent from the two reported zones, so the
handler answers 404. -/
theorem get_zone_absent_404_witness :
    (get_zone stEmpty (.ok adCompleted) "99").1 = .error ⟨404, "Zone 99 not found"⟩ := by
  exact get_zone_absent_404 stEmpty (.ok adCompleted) "99" adCompleted zonesEx
    [("1", zdEx), ("2", zdEx)] rfl rfl rfl (by decide)

/-- C10: an erroring reset_activation never touches the cached client —
the server state after a failed reset is the state before it. -/
theorem reset_error_keeps_state (st : ServerState) (env : ResetEnv) (he : HTTPErr)
    (h : (reset_activation st env).1 = .error he) :
    (reset_activation st env).2 = st := by
  unfold reset_activation at h ⊢
  cases hm : env.makedirs with
  | error e => simp [hm]
  | ok u =>
    cases hr : env.removeFile with
    | error e => simp [hm, hr]
    | ok u2 =>
      cases hcons : env.construct with
      | error e => simp [hm, hr, hcons]
      | ok c =>
        simp only [hm, hr, hcons] at h
        cases h

/-- C10 witness: a reset failing at the deletion step leaves the
previously cached client in place. -/
theorem reset_error_keeps_state_witness :
    (reset_activation stCached ⟨.ok (), .error "ENOENT", .ok adPending⟩).1 =
      .error (reset500 "ENOENT") ∧
    (reset_activation stCached ⟨.ok (), .error "ENOENT", .ok adPending⟩).2 = stCached := by
  exact ⟨rfl,
    reset_error_keeps_state stCached ⟨.ok (), .error "ENOENT", .ok adPending⟩
      (reset500 "ENOENT") rfl⟩
